import Mathlib

/-!
# Paws-frontend: the NGO authentication pipeline

A shallow embedding of `src/Components/utils/Functions/ngoAuthService.js`
(`login` and `registration`) together with the properties of its
validate / submit / react pipeline.

The two functions are `async` JavaScript functions whose observable behaviour
is the ordered sequence of calls they make on their collaborators
(`setError`, `setButtonState`, `axios.post`, `localStorage.setItem`, the
assignment to `window.location.href`) and the way the returned promise
settles.  The embedding records both: a `Run` is a trace of effects plus the
settlement of the promise.

Collaborators that the source imports but does not define are parameters:
the two validators (`isValidEmail`, `isValidPhoneNumber`) are total boolean
predicates, and `axios.post` is a function from the request to the way its
promise settles (resolved with a value, or rejected with a value); a request
that never settles is outside the model.  The two sinks,
`localStorage.setItem` and the navigation are taken not to throw.
-/

namespace NgoAuthService

/-! ## JavaScript values -/

/-- A JavaScript number, as far as the pipeline can observe it: numbers are
only passed through and tested for truthiness (both zeros are `finite 0`). -/
inductive JsNumber where
  | nan
  | posInf
  | negInf
  | finite (value : Rat)
  deriving DecidableEq

/-- The JavaScript values that travel through the pipeline: arguments, request
bodies, resolved responses and rejection values. Objects are association lists
from property name to value; the first binding of a name is the one read. -/
inductive JsVal where
  | undefined
  | null
  | bool (b : Bool)
  | num (n : JsNumber)
  | str (s : String)
  | arr (items : List JsVal)
  | obj (fields : List (String × JsVal))

instance : Inhabited JsVal := ⟨JsVal.undefined⟩

/-- The `TypeError` the engine throws when a property of `undefined` or `null`
is read. It is an error object without a `response` property (its message is
engine specific and left out). -/
def typeError : JsVal := .obj [("name", .str "TypeError")]

/-- Property read `v.key`. Reading a property of `undefined` or `null` throws a
`TypeError`; an object yields the bound value or `undefined`; the other values
(booleans, numbers, strings, arrays) yield `undefined` for the property names
the source reads (`response`, `data`, `token`, `error`), none of which is
defined on a built-in prototype. -/
def getProp (v : JsVal) (key : String) : Except JsVal JsVal :=
  match v with
  | .undefined => .error typeError
  | .null => .error typeError
  | .obj fields => .ok ((fields.lookup key).getD .undefined)
  | _ => .ok .undefined

/-- Truthiness of a number: `NaN` and zero are falsy. -/
def JsNumber.truthy : JsNumber → Bool
  | .nan => false
  | .posInf => true
  | .negInf => true
  | .finite q => q != 0

/-- JavaScript truthiness (`ToBoolean`). -/
def truthy : JsVal → Bool
  | .undefined => false
  | .null => false
  | .bool b => b
  | .num n => n.truthy
  | .str s => s != ""
  | .arr _ => true
  | .obj _ => true

/-! ## Effects and runs -/

/-- The calls the pipeline makes on its collaborators, in source terms:
`setError(msg)`, `setButtonState(state)`, `axios.post(url, body)`,
`localStorage.setItem(key, value)` and `window.location.href = href`. -/
inductive Effect where
  | setError (msg : JsVal)
  | setButtonState (state : String)
  | post (url : String) (body : JsVal)
  | setItem (key : String) (value : JsVal)
  | navigate (href : String)

/-- One execution: the effects performed, in order, and how the computation
ended (`ok` is normal completion, `error e` is an exception `e` in flight). -/
structure Run (α : Type) where
  trace : List Effect
  result : Except JsVal α

namespace Run

/-- Normal completion without effects. -/
def ret {α : Type} (a : α) : Run α := ⟨[], .ok a⟩

/-- Sequencing: the effects of the first part are kept; an exception in the
first part skips the rest. -/
def andThen {α β : Type} (x : Run α) (f : α → Run β) : Run β :=
  match x.result with
  | .error e => ⟨x.trace, .error e⟩
  | .ok a => ⟨x.trace ++ (f a).trace, (f a).result⟩

/-- The statement `try { x } catch (error) { handler(error) }`: the effects
performed before the exception are kept, and an exception thrown inside the
handler leaves the statement. -/
def tryCatch {α : Type} (x : Run α) (handler : JsVal → Run α) : Run α :=
  match x.result with
  | .ok a => ⟨x.trace, .ok a⟩
  | .error e => ⟨x.trace ++ (handler e).trace, (handler e).result⟩

/-- A single effect. -/
def emit (e : Effect) : Run Unit := ⟨[e], .ok ()⟩

/-- A pure step that may throw (a property read). -/
def lift {α : Type} (r : Except JsVal α) : Run α := ⟨[], r⟩

end Run

instance : Monad Run where
  pure := Run.ret
  bind := Run.andThen

instance : MonadExcept JsVal Run where
  throw e := ⟨[], .error e⟩
  tryCatch := Run.tryCatch

/-- The call `setError(msg)`. -/
def setError (msg : JsVal) : Run Unit := Run.emit (.setError msg)

/-- The call `setButtonState(state)`. -/
def setButtonState (state : String) : Run Unit := Run.emit (.setButtonState state)

/-- The expression `await axios.post(url, body)`: the request is recorded and the
await yields the resolved value or throws the rejection value. -/
def awaitPost (axiosPost : String → JsVal → Except JsVal JsVal)
    (url : String) (body : JsVal) : Run JsVal :=
  ⟨[.post url body], axiosPost url body⟩

/-- The call `localStorage.setItem(key, value)`. -/
def localStorageSetItem (key : String) (value : JsVal) : Run Unit :=
  Run.emit (.setItem key value)

/-- The assignment `window.location.href = href`. -/
def setLocationHref (href : String) : Run Unit := Run.emit (.navigate href)

/-- The property read `v.key` as a step of a run. -/
def readProp (v : JsVal) (key : String) : Run JsVal := Run.lift (getProp v key)

/-! ## The pipeline -/

/-- The condition `error.response && error.response.data.error`: the value of
`error.response` when that is falsy, otherwise the value of
`error.response.data.error`. -/
def errorCondition (error : JsVal) : Run JsVal := do
  let response ← readProp error "response"
  if truthy response then
    let response ← readProp error "response"
    let data ← readProp response "data"
    readProp data "error"
  else
    pure response

/-- The function `login(email, password, setError, setButtonState)`. -/
def login (isValidEmail : JsVal → Bool)
    (axiosPost : String → JsVal → Except JsVal JsVal)
    (email password : JsVal) : Run Unit := do
  if !isValidEmail email then
    setError (.str "Enter a valid email address.")
    return
  try
    setError (.str "")
    setButtonState "loading"
    let response ← awaitPost axiosPost "https://aniresfr-backend.vercel.app/login/"
      (.obj [("email", email), ("password", password)])
    setButtonState "success"
    let data ← readProp response "data"
    let token ← readProp data "token"
    localStorageSetItem "csrftoken" token
    setLocationHref "/"
  catch error =>
    setButtonState "error"
    if truthy (← errorCondition error) then
      let response ← readProp error "response"
      let data ← readProp response "data"
      setError (← readProp data "error")
    else
      setError (.str "An error occurred while logging in.")

/-- The function `registration(orgName, phoneNumber, email, emergency, password,
location, websiteLink, latitude, longitude, setError, setButtonState)`. -/
def registration (isValidEmail isValidPhoneNumber : JsVal → Bool)
    (axiosPost : String → JsVal → Except JsVal JsVal)
    (orgName phoneNumber email emergency password location websiteLink
      latitude longitude : JsVal) : Run Unit := do
  let _ := location
  if !isValidEmail email then
    setError (.str "Enter a valid email address.")
    return
  if !isValidPhoneNumber phoneNumber then
    setError (.str "Enter a valid phone number.")
    return
  if !isValidPhoneNumber emergency then
    setError (.str "Enter a valid emergency contact number.")
    return
  try
    setError (.str "")
    setButtonState "loading"
    let response ← awaitPost axiosPost "https://aniresfr-backend.vercel.app/register/ngo"
      (.obj [("name", orgName),
             ("phone_number", phoneNumber),
             ("email", email),
             ("password", password),
             ("emergency_contact_number", emergency),
             ("animals_supported", .arr []),
             ("website", websiteLink),
             ("address", .str "temp"),
             ("latitude", latitude),
             ("longitude", longitude)])
    setButtonState "success"
    let data ← readProp response "data"
    let token ← readProp data "token"
    localStorageSetItem "csrftoken" token
    setLocationHref "/"
  catch error =>
    setButtonState "error"
    if truthy (← errorCondition error) then
      let response ← readProp error "response"
      let data ← readProp response "data"
      setError (← readProp data "error")
    else
      setError (.str "An error occurred while registering.")

/-! ## Observations on a trace -/

/-- The values passed to the button-state sink, in order. -/
def buttonStates (t : List Effect) : List String :=
  t.filterMap fun
    | .setButtonState s => some s
    | _ => none

/-- The values passed to the error sink, in order. -/
def errorMessages (t : List Effect) : List JsVal :=
  t.filterMap fun
    | .setError m => some m
    | _ => none

/-- The requests sent (`url`, `body`), in order. -/
def posts (t : List Effect) : List (String × JsVal) :=
  t.filterMap fun
    | .post url body => some (url, body)
    | _ => none

/-- The storage writes (`key`, `value`), in order. -/
def storageWrites (t : List Effect) : List (String × JsVal) :=
  t.filterMap fun
    | .setItem key value => some (key, value)
    | _ => none

/-- The navigations performed, in order. -/
def navigations (t : List Effect) : List String :=
  t.filterMap fun
    | .navigate href => some href
    | _ => none

/-! ## The shared shape of the two functions

After validation `login` and `registration` run the same `try`/`catch`
statement, up to the endpoint, the payload and the fallback message. The two
blocks are named here so that the case analysis is done once. -/

/-- The `try` block of both functions, for an endpoint and a payload. -/
def tryBlock (axiosPost : String → JsVal → Except JsVal JsVal)
    (url : String) (body : JsVal) : Run Unit := do
  setError (.str "")
  setButtonState "loading"
  let response ← awaitPost axiosPost url body
  setButtonState "success"
  let data ← readProp response "data"
  let token ← readProp data "token"
  localStorageSetItem "csrftoken" token
  setLocationHref "/"

/-- The `catch` block of both functions, for a fallback message. -/
def catchBlock (fallback : String) (error : JsVal) : Run Unit := do
  setButtonState "error"
  if truthy (← errorCondition error) then
    let response ← readProp error "response"
    let data ← readProp response "data"
    setError (← readProp data "error")
  else
    setError (.str fallback)

/-- The effects both functions perform before the request settles. -/
def submitted (url : String) (body : JsVal) : List Effect :=
  [.setError (.str ""), .setButtonState "loading", .post url body]

/-- The payload of the login request. -/
def loginBody (email password : JsVal) : JsVal :=
  .obj [("email", email), ("password", password)]

/-- The payload of the registration request. -/
def registrationBody (orgName phoneNumber email emergency password websiteLink
    latitude longitude : JsVal) : JsVal :=
  .obj [("name", orgName),
        ("phone_number", phoneNumber),
        ("email", email),
        ("password", password),
        ("emergency_contact_number", emergency),
        ("animals_supported", .arr []),
        ("website", websiteLink),
        ("address", .str "temp"),
        ("latitude", latitude),
        ("longitude", longitude)]

/-- The frame condition on the trace of one invocation: at most one request,
one storage write and one navigation; every write goes to `"csrftoken"` and
every navigation to `"/"`; a write happened exactly when a navigation did; and
when the last reported button state is `error`, or none was reported, neither
happened. -/
def NoPartialSuccess (t : List Effect) : Prop :=
  (posts t).length ≤ 1 ∧ (storageWrites t).length ≤ 1 ∧ (navigations t).length ≤ 1 ∧
  (∀ w ∈ storageWrites t, w.1 = "csrftoken") ∧ (∀ href ∈ navigations t, href = "/") ∧
  ((∃ v, ("csrftoken", v) ∈ storageWrites t) ↔ "/" ∈ navigations t) ∧
  ((buttonStates t).getLast? = some "error" ∨ buttonStates t = [] →
    storageWrites t = [] ∧ navigations t = [])

/-! ## Sample collaborators

Concrete validators and servers on which the theorems are instantiated. -/

/-- A sample email validator: a string containing `@`. -/
def sampleIsValidEmail : JsVal → Bool
  | .str s => s.data.contains (Char.ofNat 64)
  | _ => false

/-- A sample phone validator: a string of ten characters. -/
def sampleIsValidPhoneNumber : JsVal → Bool
  | .str s => s.length == 10
  | _ => false

/-- A server that answers every request with a 2xx response of the given body. -/
def respondsWith (data : JsVal) : String → JsVal → Except JsVal JsVal :=
  fun _ _ => .ok (.obj [("status", .num (.finite 200)), ("data", data)])

/-- A server that answers every request with a non-2xx response of the given
body, which `axios` turns into a rejection carrying the response. -/
def failsWith (status : Nat) (data : JsVal) : String → JsVal → Except JsVal JsVal :=
  fun _ _ => .error (.obj [("message", .str "Request failed"),
    ("response", .obj [("status", .num (.finite status)), ("data", data)])])

/-- A network failure: `axios` rejects with an error that has no `response`. -/
def networkDown : String → JsVal → Except JsVal JsVal :=
  fun _ _ => .error (.obj [("message", .str "Network Error")])

/-! ## Basic facts about values -/

theorem getProp_error {v x : JsVal} {k : String} (h : getProp v k = .error x) :
    x = typeError := by
  cases v <;> simp [getProp] at h <;> exact h.symm

theorem truthy_of_getProp {r d x : JsVal} {k k2 : String}
    (hd : getProp r k = .ok d) (hx : getProp d k2 = .ok x) : truthy r = true := by
  cases r <;> simp [getProp] at hd <;> subst hd <;> simp [getProp, truthy] at hx ⊢

theorem getProp_of_truthy {r : JsVal} (k : String) (h : truthy r = true) :
    ∃ d, getProp r k = .ok d := by
  cases r <;> simp [getProp, truthy] at h ⊢

/-! ## The two functions after validation -/

theorem login_of_valid (isValidEmail : JsVal → Bool)
    (axiosPost : String → JsVal → Except JsVal JsVal) (email password : JsVal)
    (h : isValidEmail email = true) :
    login isValidEmail axiosPost email password
      = Run.tryCatch (tryBlock axiosPost "https://aniresfr-backend.vercel.app/login/"
          (loginBody email password)) (catchBlock "An error occurred while logging in.") := by
  simp [login, h]
  rfl

theorem registration_of_valid (isValidEmail isValidPhoneNumber : JsVal → Bool)
    (axiosPost : String → JsVal → Except JsVal JsVal)
    (orgName phoneNumber email emergency password location websiteLink
      latitude longitude : JsVal)
    (h : isValidEmail email = true) (hp : isValidPhoneNumber phoneNumber = true)
    (he : isValidPhoneNumber emergency = true) :
    registration isValidEmail isValidPhoneNumber axiosPost orgName phoneNumber email
        emergency password location websiteLink latitude longitude
      = Run.tryCatch (tryBlock axiosPost "https://aniresfr-backend.vercel.app/register/ngo"
          (registrationBody orgName phoneNumber email emergency password websiteLink
            latitude longitude)) (catchBlock "An error occurred while registering.") := by
  simp [registration, h, hp, he]
  rfl

/-- Every run of `login` is either a single `setError` call (validation failed)
or the run of the `try`/`catch` statement. -/
theorem login_cases (isValidEmail : JsVal → Bool)
    (axiosPost : String → JsVal → Except JsVal JsVal) (email password : JsVal) :
    (∃ m, login isValidEmail axiosPost email password = ⟨[.setError m], .ok ()⟩) ∨
    login isValidEmail axiosPost email password
      = Run.tryCatch (tryBlock axiosPost "https://aniresfr-backend.vercel.app/login/"
          (loginBody email password)) (catchBlock "An error occurred while logging in.") := by
  cases h : isValidEmail email with
  | false =>
    refine Or.inl ⟨.str "Enter a valid email address.", ?_⟩
    simp [login, h]
    rfl
  | true => exact Or.inr (login_of_valid _ _ _ _ h)

/-- Every run of `registration` is either a single `setError` call (validation
failed) or the run of the `try`/`catch` statement. -/
theorem registration_cases (isValidEmail isValidPhoneNumber : JsVal → Bool)
    (axiosPost : String → JsVal → Except JsVal JsVal)
    (orgName phoneNumber email emergency password location websiteLink
      latitude longitude : JsVal) :
    (∃ m, registration isValidEmail isValidPhoneNumber axiosPost orgName phoneNumber email
          emergency password location websiteLink latitude longitude
        = ⟨[.setError m], .ok ()⟩) ∨
    registration isValidEmail isValidPhoneNumber axiosPost orgName phoneNumber email
          emergency password location websiteLink latitude longitude
      = Run.tryCatch (tryBlock axiosPost "https://aniresfr-backend.vercel.app/register/ngo"
          (registrationBody orgName phoneNumber email emergency password websiteLink
            latitude longitude)) (catchBlock "An error occurred while registering.") := by
  cases h : isValidEmail email with
  | false =>
    refine Or.inl ⟨.str "Enter a valid email address.", ?_⟩
    simp [registration, h]
    rfl
  | true =>
    cases hp : isValidPhoneNumber phoneNumber with
    | false =>
      refine Or.inl ⟨.str "Enter a valid phone number.", ?_⟩
      simp [registration, h, hp]
      rfl
    | true =>
      cases he : isValidPhoneNumber emergency with
      | false =>
        refine Or.inl ⟨.str "Enter a valid emergency contact number.", ?_⟩
        simp [registration, h, hp, he]
        rfl
      | true => exact Or.inr (registration_of_valid _ _ _ _ _ _ _ _ _ _ _ _ h hp he)

/-! ## The `try` block, case by case -/

theorem tryBlock_rejected (axiosPost : String → JsVal → Except JsVal JsVal)
    (url : String) (body e : JsVal) (hpost : axiosPost url body = .error e) :
    tryBlock axiosPost url body = ⟨submitted url body, .error e⟩ := by
  simp [tryBlock, submitted, bind, Run.andThen, awaitPost, hpost, setError, setButtonState,
    Run.emit]

theorem tryBlock_resolved (axiosPost : String → JsVal → Except JsVal JsVal)
    (url : String) (body r d t : JsVal) (hpost : axiosPost url body = .ok r)
    (hd : getProp r "data" = .ok d) (ht : getProp d "token" = .ok t) :
    tryBlock axiosPost url body
      = ⟨submitted url body
          ++ [.setButtonState "success", .setItem "csrftoken" t, .navigate "/"], .ok ()⟩ := by
  simp [tryBlock, submitted, bind, Run.andThen, awaitPost, hpost, readProp, Run.lift, hd, ht,
    setError, setButtonState, Run.emit, localStorageSetItem, setLocationHref]

theorem tryBlock_no_data (axiosPost : String → JsVal → Except JsVal JsVal)
    (url : String) (body r x : JsVal) (hpost : axiosPost url body = .ok r)
    (hd : getProp r "data" = .error x) :
    tryBlock axiosPost url body
      = ⟨submitted url body ++ [.setButtonState "success"], .error typeError⟩ := by
  cases getProp_error hd
  simp [tryBlock, submitted, bind, Run.andThen, awaitPost, hpost, readProp, Run.lift, hd,
    setError, setButtonState, Run.emit, localStorageSetItem, setLocationHref]

theorem tryBlock_no_body (axiosPost : String → JsVal → Except JsVal JsVal)
    (url : String) (body r d x : JsVal) (hpost : axiosPost url body = .ok r)
    (hd : getProp r "data" = .ok d) (ht : getProp d "token" = .error x) :
    tryBlock axiosPost url body
      = ⟨submitted url body ++ [.setButtonState "success"], .error typeError⟩ := by
  cases getProp_error ht
  simp [tryBlock, submitted, bind, Run.andThen, awaitPost, hpost, readProp, Run.lift, hd, ht,
    setError, setButtonState, Run.emit, localStorageSetItem, setLocationHref]

/-! ## The `catch` block, case by case -/

theorem catchBlock_typeError (fallback : String) :
    catchBlock fallback typeError
      = ⟨[.setButtonState "error", .setError (.str fallback)], .ok ()⟩ := by
  rfl

theorem catchBlock_not_an_object (fallback : String) (e x : JsVal)
    (hr : getProp e "response" = .error x) :
    catchBlock fallback e = ⟨[.setButtonState "error"], .error typeError⟩ := by
  cases getProp_error hr
  simp [catchBlock, errorCondition, bind, Run.andThen, readProp, Run.lift, hr,
    setButtonState, Run.emit]

theorem catchBlock_no_response (fallback : String) (e r : JsVal)
    (hr : getProp e "response" = .ok r) (hf : truthy r = false) :
    catchBlock fallback e
      = ⟨[.setButtonState "error", .setError (.str fallback)], .ok ()⟩ := by
  simp [catchBlock, errorCondition, bind, pure, Run.ret, Run.andThen, readProp, Run.lift, hr,
    hf, setButtonState, setError, Run.emit]

theorem catchBlock_no_body (fallback : String) (e r d x : JsVal)
    (hr : getProp e "response" = .ok r) (ht : truthy r = true)
    (hd : getProp r "data" = .ok d) (hx : getProp d "error" = .error x) :
    catchBlock fallback e = ⟨[.setButtonState "error"], .error typeError⟩ := by
  cases getProp_error hx
  simp [catchBlock, errorCondition, bind, Run.andThen, readProp, Run.lift, hr, ht, hd, hx,
    setButtonState, Run.emit]

theorem catchBlock_structured (fallback : String) (e r d c : JsVal)
    (hr : getProp e "response" = .ok r)
    (hd : getProp r "data" = .ok d) (hc : getProp d "error" = .ok c)
    (ht : truthy c = true) :
    catchBlock fallback e = ⟨[.setButtonState "error", .setError c], .ok ()⟩ := by
  have hrt : truthy r = true := truthy_of_getProp hd hc
  simp [catchBlock, errorCondition, bind, Run.andThen, readProp, Run.lift, hr, hrt, hd, hc, ht,
    setButtonState, setError, Run.emit]

theorem catchBlock_falsy_field (fallback : String) (e r d c : JsVal)
    (hr : getProp e "response" = .ok r)
    (hd : getProp r "data" = .ok d) (hc : getProp d "error" = .ok c)
    (hf : truthy c = false) :
    catchBlock fallback e
      = ⟨[.setButtonState "error", .setError (.str fallback)], .ok ()⟩ := by
  have hrt : truthy r = true := truthy_of_getProp hd hc
  simp [catchBlock, errorCondition, bind, Run.andThen, readProp, Run.lift, hr, hrt, hd, hc, hf,
    setButtonState, setError, Run.emit]

theorem catchBlock_cases (fallback : String) (e : JsVal) :
    (∃ m, catchBlock fallback e = ⟨[.setButtonState "error", .setError m], .ok ()⟩) ∨
    catchBlock fallback e = ⟨[.setButtonState "error"], .error typeError⟩ := by
  cases hr : getProp e "response" with
  | error x => exact Or.inr (catchBlock_not_an_object fallback e x hr)
  | ok r =>
    cases ht : truthy r with
    | false => exact Or.inl ⟨_, catchBlock_no_response fallback e r hr ht⟩
    | true =>
      obtain ⟨d, hd⟩ := getProp_of_truthy "data" ht
      cases hc : getProp d "error" with
      | error x => exact Or.inr (catchBlock_no_body fallback e r d x hr ht hd hc)
      | ok c =>
        cases hct : truthy c with
        | false => exact Or.inl ⟨_, catchBlock_falsy_field fallback e r d c hr hd hc hct⟩
        | true => exact Or.inl ⟨_, catchBlock_structured fallback e r d c hr hd hc hct⟩

/-! ## The whole `try`/`catch` statement -/

theorem tryCatch_of_ok {t : List Effect} {x : Run Unit} (handler : JsVal → Run Unit)
    (hx : x = ⟨t, .ok ()⟩) : Run.tryCatch x handler = ⟨t, .ok ()⟩ := by
  subst hx; rfl

theorem tryCatch_of_error {t t2 : List Effect} {e : JsVal} {r : Except JsVal Unit}
    {x : Run Unit} {handler : JsVal → Run Unit}
    (hx : x = ⟨t, .error e⟩) (hh : handler e = ⟨t2, r⟩) :
    Run.tryCatch x handler = ⟨t ++ t2, r⟩ := by
  subst hx; simp [Run.tryCatch, hh]

/-- Every run of the statement has one of four shapes: success with the side
effects; `success` followed by `error` when reading the token throws; `error`
with a message; `error` with an exception leaving the `catch` block. -/
theorem pipeline_cases (axiosPost : String → JsVal → Except JsVal JsVal)
    (url : String) (body : JsVal) (fallback : String) :
    (∃ t, Run.tryCatch (tryBlock axiosPost url body) (catchBlock fallback)
        = ⟨submitted url body
            ++ [.setButtonState "success", .setItem "csrftoken" t, .navigate "/"], .ok ()⟩) ∨
    Run.tryCatch (tryBlock axiosPost url body) (catchBlock fallback)
        = ⟨submitted url body ++ [.setButtonState "success", .setButtonState "error",
            .setError (.str fallback)], .ok ()⟩ ∨
    (∃ m, Run.tryCatch (tryBlock axiosPost url body) (catchBlock fallback)
        = ⟨submitted url body ++ [.setButtonState "error", .setError m], .ok ()⟩) ∨
    Run.tryCatch (tryBlock axiosPost url body) (catchBlock fallback)
        = ⟨submitted url body ++ [.setButtonState "error"], .error typeError⟩ := by
  cases hpost : axiosPost url body with
  | error e =>
    have hx := tryBlock_rejected axiosPost url body e hpost
    rcases catchBlock_cases fallback e with ⟨m, hm⟩ | hm
    · exact Or.inr (Or.inr (Or.inl ⟨m, tryCatch_of_error hx hm⟩))
    · exact Or.inr (Or.inr (Or.inr (tryCatch_of_error hx hm)))
  | ok r =>
    have thrown : ∀ x : Run Unit,
        x = ⟨submitted url body ++ [.setButtonState "success"], .error typeError⟩ →
        Run.tryCatch x (catchBlock fallback)
          = ⟨submitted url body ++ [.setButtonState "success", .setButtonState "error",
              .setError (.str fallback)], .ok ()⟩ := by
      intro x hx
      rw [tryCatch_of_error hx (catchBlock_typeError fallback)]
      simp
    cases hd : getProp r "data" with
    | error x => exact Or.inr (Or.inl (thrown _ (tryBlock_no_data axiosPost url body r x hpost hd)))
    | ok d =>
      cases ht : getProp d "token" with
      | error x =>
        exact Or.inr (Or.inl (thrown _ (tryBlock_no_body axiosPost url body r d x hpost hd ht)))
      | ok t =>
        exact Or.inl ⟨t, tryCatch_of_ok _ (tryBlock_resolved axiosPost url body r d t hpost hd ht)⟩

theorem noPartialSuccess_pipeline (axiosPost : String → JsVal → Except JsVal JsVal)
    (url : String) (body : JsVal) (fallback : String) :
    NoPartialSuccess (Run.tryCatch (tryBlock axiosPost url body) (catchBlock fallback)).trace := by
  rcases pipeline_cases axiosPost url body fallback with ⟨t, h⟩ | h | ⟨m, h⟩ | h <;>
    rw [h] <;>
    simp [NoPartialSuccess, submitted, posts, storageWrites, navigations, buttonStates]

theorem noPartialSuccess_rejected (m : JsVal) : NoPartialSuccess [.setError m] := by
  simp [NoPartialSuccess, posts, storageWrites, navigations, buttonStates]

theorem buttonStates_pipeline (axiosPost : String → JsVal → Except JsVal JsVal)
    (url : String) (body : JsVal) (fallback : String) :
    buttonStates (Run.tryCatch (tryBlock axiosPost url body) (catchBlock fallback)).trace
      ∈ [["loading", "success"], ["loading", "error"], ["loading", "success", "error"]] := by
  rcases pipeline_cases axiosPost url body fallback with ⟨t, h⟩ | h | ⟨m, h⟩ | h <;>
    rw [h] <;> simp [submitted, buttonStates]

/-! ## Local validation -/

/-- Claim C1: when `isValidEmail(email)` is false, `login` and `registration`
(whatever the other arguments are) call `setError` exactly once, with
"Enter a valid email address.", and do nothing else: no button state, no
request, no storage write, no navigation; the promise resolves. -/
theorem invalid_email_rejected (isValidEmail isValidPhoneNumber : JsVal → Bool)
    (axiosPost : String → JsVal → Except JsVal JsVal)
    (orgName phoneNumber email emergency password location websiteLink
      latitude longitude : JsVal)
    (h : isValidEmail email = false) :
    login isValidEmail axiosPost email password
      = ⟨[.setError (.str "Enter a valid email address.")], .ok ()⟩ ∧
    registration isValidEmail isValidPhoneNumber axiosPost orgName phoneNumber email
        emergency password location websiteLink latitude longitude
      = ⟨[.setError (.str "Enter a valid email address.")], .ok ()⟩ := by
  constructor
  · simp [login, h]
    rfl
  · simp [registration, h]
    rfl

theorem invalid_email_rejected_witness :
    login sampleIsValidEmail (respondsWith (.obj [("token", .str "abc123")]))
        (.str "ngo.example.org") (.str "secret")
      = ⟨[.setError (.str "Enter a valid email address.")], .ok ()⟩ ∧
    registration sampleIsValidEmail sampleIsValidPhoneNumber
        (respondsWith (.obj [("token", .str "abc123")]))
        (.str "Paws") (.str "9876543210") (.str "ngo.example.org") (.str "9123456780")
        (.str "secret") (.str "Pune") (.str "https://paws.example.org")
        (.num (.finite 18)) (.num (.finite 73))
      = ⟨[.setError (.str "Enter a valid email address.")], .ok ()⟩ :=
  invalid_email_rejected sampleIsValidEmail sampleIsValidPhoneNumber
    (respondsWith (.obj [("token", .str "abc123")]))
    (.str "Paws") (.str "9876543210") (.str "ngo.example.org") (.str "9123456780")
    (.str "secret") (.str "Pune") (.str "https://paws.example.org")
    (.num (.finite 18)) (.num (.finite 73)) (by decide)

/-- Claim C2: in `registration` with a valid email, an invalid `phoneNumber`
yields the single call `setError("Enter a valid phone number.")` whatever
`emergency` is, and a valid `phoneNumber` with an invalid `emergency` yields
the single call `setError("Enter a valid emergency contact number.")`; nothing
else happens in either case. -/
theorem invalid_phone_rejected (isValidEmail isValidPhoneNumber : JsVal → Bool)
    (axiosPost : String → JsVal → Except JsVal JsVal)
    (orgName phoneNumber email emergency password location websiteLink
      latitude longitude : JsVal)
    (h : isValidEmail email = true) :
    (isValidPhoneNumber phoneNumber = false →
      registration isValidEmail isValidPhoneNumber axiosPost orgName phoneNumber email
          emergency password location websiteLink latitude longitude
        = ⟨[.setError (.str "Enter a valid phone number.")], .ok ()⟩) ∧
    (isValidPhoneNumber phoneNumber = true → isValidPhoneNumber emergency = false →
      registration isValidEmail isValidPhoneNumber axiosPost orgName phoneNumber email
          emergency password location websiteLink latitude longitude
        = ⟨[.setError (.str "Enter a valid emergency contact number.")], .ok ()⟩) := by
  constructor
  · intro hp
    simp [registration, h, hp]
    rfl
  · intro hp he
    simp [registration, h, hp, he]
    rfl

theorem invalid_phone_rejected_witness :
    registration sampleIsValidEmail sampleIsValidPhoneNumber
        (respondsWith (.obj [("token", .str "abc123")]))
        (.str "Paws") (.str "98765") (.str "ngo@example.org") (.str "91234")
        (.str "secret") (.str "Pune") (.str "https://paws.example.org")
        (.num (.finite 18)) (.num (.finite 73))
      = ⟨[.setError (.str "Enter a valid phone number.")], .ok ()⟩ ∧
    registration sampleIsValidEmail sampleIsValidPhoneNumber
        (respondsWith (.obj [("token", .str "abc123")]))
        (.str "Paws") (.str "9876543210") (.str "ngo@example.org") (.str "91234")
        (.str "secret") (.str "Pune") (.str "https://paws.example.org")
        (.num (.finite 18)) (.num (.finite 73))
      = ⟨[.setError (.str "Enter a valid emergency contact number.")], .ok ()⟩ :=
  ⟨(invalid_phone_rejected sampleIsValidEmail sampleIsValidPhoneNumber
      (respondsWith (.obj [("token", .str "abc123")]))
      (.str "Paws") (.str "98765") (.str "ngo@example.org") (.str "91234")
      (.str "secret") (.str "Pune") (.str "https://paws.example.org")
      (.num (.finite 18)) (.num (.finite 73)) (by decide)).1 (by decide),
   (invalid_phone_rejected sampleIsValidEmail sampleIsValidPhoneNumber
      (respondsWith (.obj [("token", .str "abc123")]))
      (.str "Paws") (.str "9876543210") (.str "ngo@example.org") (.str "91234")
      (.str "secret") (.str "Pune") (.str "https://paws.example.org")
      (.num (.finite 18)) (.num (.finite 73)) (by decide)).2 (by decide) (by decide)⟩

/-! ## The request resolves -/

/-- Both functions, when validation passes and the request resolves with a
response whose body can be read: `success` is reported and the body's `token`
property (whatever it is) is stored and the page navigates. -/
theorem resolved_with_body (isValidEmail isValidPhoneNumber : JsVal → Bool)
    (axiosPost : String → JsVal → Except JsVal JsVal)
    (orgName phoneNumber email emergency password location websiteLink
      latitude longitude : JsVal)
    (response data token : JsVal)
    (hData : getProp response "data" = .ok data)
    (hToken : getProp data "token" = .ok token) :
    (isValidEmail email = true →
      axiosPost "https://aniresfr-backend.vercel.app/login/" (loginBody email password) = .ok response →
      login isValidEmail axiosPost email password
        = ⟨submitted "https://aniresfr-backend.vercel.app/login/" (loginBody email password)
            ++ [.setButtonState "success", .setItem "csrftoken" token, .navigate "/"],
           .ok ()⟩) ∧
    (isValidEmail email = true → isValidPhoneNumber phoneNumber = true →
      isValidPhoneNumber emergency = true →
      axiosPost "https://aniresfr-backend.vercel.app/register/ngo"
        (registrationBody orgName phoneNumber email emergency password websiteLink
            latitude longitude) = .ok response →
      registration isValidEmail isValidPhoneNumber axiosPost orgName phoneNumber email
          emergency password location websiteLink latitude longitude
        = ⟨submitted "https://aniresfr-backend.vercel.app/register/ngo"
            (registrationBody orgName phoneNumber email emergency password websiteLink
            latitude longitude)
            ++ [.setButtonState "success", .setItem "csrftoken" token, .navigate "/"],
           .ok ()⟩) := by
  constructor
  · intro h hpost
    rw [login_of_valid _ _ _ _ h]
    exact tryCatch_of_ok _ (tryBlock_resolved _ _ _ _ _ _ hpost hData hToken)
  · intro h hp he hpost
    rw [registration_of_valid _ _ _ _ _ _ _ _ _ _ _ _ h hp he]
    exact tryCatch_of_ok _ (tryBlock_resolved _ _ _ _ _ _ hpost hData hToken)

/-- Claim C3: for `login` and for `registration`, when every validation passes
and the request resolves with a response whose body has `token` equal to the
string `t`, the effects are, in this order and nothing else: `setError("")`,
`setButtonState('loading')`, the POST, `setButtonState('success')`,
`localStorage.setItem("csrftoken", t)`, navigation to "/"; the promise
resolves. -/
theorem token_response_succeeds (isValidEmail isValidPhoneNumber : JsVal → Bool)
    (axiosPost : String → JsVal → Except JsVal JsVal)
    (orgName phoneNumber email emergency password location websiteLink
      latitude longitude : JsVal)
    (response data : JsVal) (t : String)
    (hData : getProp response "data" = .ok data)
    (hToken : getProp data "token" = .ok (.str t)) :
    (isValidEmail email = true →
      axiosPost "https://aniresfr-backend.vercel.app/login/" (loginBody email password) = .ok response →
      login isValidEmail axiosPost email password
        = ⟨[.setError (.str ""), .setButtonState "loading",
            .post "https://aniresfr-backend.vercel.app/login/" (loginBody email password),
            .setButtonState "success", .setItem "csrftoken" (.str t), .navigate "/"],
           .ok ()⟩) ∧
    (isValidEmail email = true → isValidPhoneNumber phoneNumber = true →
      isValidPhoneNumber emergency = true →
      axiosPost "https://aniresfr-backend.vercel.app/register/ngo"
        (registrationBody orgName phoneNumber email emergency password websiteLink
            latitude longitude) = .ok response →
      registration isValidEmail isValidPhoneNumber axiosPost orgName phoneNumber email
          emergency password location websiteLink latitude longitude
        = ⟨[.setError (.str ""), .setButtonState "loading",
            .post "https://aniresfr-backend.vercel.app/register/ngo"
              (registrationBody orgName phoneNumber email emergency password websiteLink
            latitude longitude),
            .setButtonState "success", .setItem "csrftoken" (.str t), .navigate "/"],
           .ok ()⟩) :=
  resolved_with_body isValidEmail isValidPhoneNumber axiosPost orgName phoneNumber email
    emergency password location websiteLink latitude longitude response data (.str t)
    hData hToken

theorem token_response_succeeds_witness :
    login sampleIsValidEmail (respondsWith (.obj [("token", .str "abc123")]))
        (.str "ngo@example.org") (.str "secret")
      = ⟨[.setError (.str ""), .setButtonState "loading",
          .post "https://aniresfr-backend.vercel.app/login/"
            (loginBody (.str "ngo@example.org") (.str "secret")),
          .setButtonState "success", .setItem "csrftoken" (.str "abc123"), .navigate "/"],
         .ok ()⟩ ∧
    registration sampleIsValidEmail sampleIsValidPhoneNumber
        (respondsWith (.obj [("token", .str "abc123")]))
        (.str "Paws") (.str "9876543210") (.str "ngo@example.org") (.str "9123456780")
        (.str "secret") (.str "Pune") (.str "https://paws.example.org")
        (.num (.finite 18)) (.num (.finite 73))
      = ⟨[.setError (.str ""), .setButtonState "loading",
          .post "https://aniresfr-backend.vercel.app/register/ngo"
            (registrationBody (.str "Paws") (.str "9876543210") (.str "ngo@example.org")
            (.str "9123456780") (.str "secret") (.str "https://paws.example.org")
            (.num (.finite 18)) (.num (.finite 73))),
          .setButtonState "success", .setItem "csrftoken" (.str "abc123"), .navigate "/"],
         .ok ()⟩ :=
  have w := token_response_succeeds sampleIsValidEmail sampleIsValidPhoneNumber
    (respondsWith (.obj [("token", .str "abc123")]))
    (.str "Paws") (.str "9876543210") (.str "ngo@example.org") (.str "9123456780")
        (.str "secret") (.str "Pune") (.str "https://paws.example.org")
        (.num (.finite 18)) (.num (.finite 73))
    (.obj [("status", .num (.finite 200)), ("data", .obj [("token", .str "abc123")])])
    (.obj [("token", .str "abc123")]) "abc123" (by rfl) (by rfl)
  ⟨w.1 (by decide) (by rfl), w.2 (by decide) (by decide) (by decide) (by rfl)⟩

/-- Claim C6, the counterexample: `login` with a valid email against a server
that answers 2xx with an empty object as body (no `token` field) does not report `error`
after `loading` while leaving storage and location alone: it reports
`success`, stores `undefined` under "csrftoken" and navigates to "/". -/
theorem tokenless_response_counterexample :
    ¬ ((buttonStates (login sampleIsValidEmail (respondsWith (.obj []))
          (.str "ngo@example.org") (.str "secret")).trace).getLast? = some "error" ∧
       storageWrites (login sampleIsValidEmail (respondsWith (.obj []))
          (.str "ngo@example.org") (.str "secret")).trace = [] ∧
       navigations (login sampleIsValidEmail (respondsWith (.obj []))
          (.str "ngo@example.org") (.str "secret")).trace = []) := by
  have hrun : login sampleIsValidEmail (respondsWith (.obj []))
      (.str "ngo@example.org") (.str "secret")
      = ⟨[.setError (.str ""), .setButtonState "loading",
          .post "https://aniresfr-backend.vercel.app/login/"
            (loginBody (.str "ngo@example.org") (.str "secret")),
          .setButtonState "success", .setItem "csrftoken" .undefined, .navigate "/"],
         .ok ()⟩ := rfl
  rw [hrun]
  simp [buttonStates, storageWrites, navigations]

/-- Claim C6, as amended: for `login` and for `registration`, when every
validation passes and the request resolves with a response that has a body
(`response.data` is neither `null` nor `undefined`), `success` is the button
state reported after `loading`, the value of the body's `token` property
(`undefined` when the body has none) is stored under "csrftoken" and the page
navigates to "/": the presence of a token is not checked. -/
theorem resolved_response_succeeds (isValidEmail isValidPhoneNumber : JsVal → Bool)
    (axiosPost : String → JsVal → Except JsVal JsVal)
    (orgName phoneNumber email emergency password location websiteLink
      latitude longitude : JsVal)
    (response data token : JsVal)
    (hData : getProp response "data" = .ok data)
    (hToken : getProp data "token" = .ok token) :
    (isValidEmail email = true →
      axiosPost "https://aniresfr-backend.vercel.app/login/" (loginBody email password) = .ok response →
      buttonStates (login isValidEmail axiosPost email password).trace
          = ["loading", "success"] ∧
      storageWrites (login isValidEmail axiosPost email password).trace
          = [("csrftoken", token)] ∧
      navigations (login isValidEmail axiosPost email password).trace = ["/"]) ∧
    (isValidEmail email = true → isValidPhoneNumber phoneNumber = true →
      isValidPhoneNumber emergency = true →
      axiosPost "https://aniresfr-backend.vercel.app/register/ngo"
        (registrationBody orgName phoneNumber email emergency password websiteLink
            latitude longitude) = .ok response →
      buttonStates (registration isValidEmail isValidPhoneNumber axiosPost orgName phoneNumber email
          emergency password location websiteLink latitude longitude).trace
          = ["loading", "success"] ∧
      storageWrites (registration isValidEmail isValidPhoneNumber axiosPost orgName phoneNumber email
          emergency password location websiteLink latitude longitude).trace
          = [("csrftoken", token)] ∧
      navigations (registration isValidEmail isValidPhoneNumber axiosPost orgName phoneNumber email
          emergency password location websiteLink latitude longitude).trace = ["/"]) := by
  have w := resolved_with_body isValidEmail isValidPhoneNumber axiosPost orgName phoneNumber
    email emergency password location websiteLink latitude longitude response data token
    hData hToken
  constructor
  · intro h hpost
    rw [w.1 h hpost]
    simp [submitted, buttonStates, storageWrites, navigations]
  · intro h hp he hpost
    rw [w.2 h hp he hpost]
    simp [submitted, buttonStates, storageWrites, navigations]

theorem resolved_response_succeeds_witness :
    (buttonStates (login sampleIsValidEmail (respondsWith (.obj []))
        (.str "ngo@example.org") (.str "secret")).trace = ["loading", "success"] ∧
      storageWrites (login sampleIsValidEmail (respondsWith (.obj []))
        (.str "ngo@example.org") (.str "secret")).trace = [("csrftoken", .undefined)] ∧
      navigations (login sampleIsValidEmail (respondsWith (.obj []))
        (.str "ngo@example.org") (.str "secret")).trace = ["/"]) ∧
    (buttonStates (registration sampleIsValidEmail sampleIsValidPhoneNumber
        (respondsWith (.obj []))
        (.str "Paws") (.str "9876543210") (.str "ngo@example.org") (.str "9123456780")
        (.str "secret") (.str "Pune") (.str "https://paws.example.org")
        (.num (.finite 18)) (.num (.finite 73))).trace = ["loading", "success"] ∧
      storageWrites (registration sampleIsValidEmail sampleIsValidPhoneNumber
        (respondsWith (.obj []))
        (.str "Paws") (.str "9876543210") (.str "ngo@example.org") (.str "9123456780")
        (.str "secret") (.str "Pune") (.str "https://paws.example.org")
        (.num (.finite 18)) (.num (.finite 73))).trace = [("csrftoken", .undefined)] ∧
      navigations (registration sampleIsValidEmail sampleIsValidPhoneNumber
        (respondsWith (.obj []))
        (.str "Paws") (.str "9876543210") (.str "ngo@example.org") (.str "9123456780")
        (.str "secret") (.str "Pune") (.str "https://paws.example.org")
        (.num (.finite 18)) (.num (.finite 73))).trace = ["/"]) :=
  have w := resolved_response_succeeds sampleIsValidEmail sampleIsValidPhoneNumber
    (respondsWith (.obj []))
    (.str "Paws") (.str "9876543210") (.str "ngo@example.org") (.str "9123456780")
        (.str "secret") (.str "Pune") (.str "https://paws.example.org")
        (.num (.finite 18)) (.num (.finite 73))
    (.obj [("status", .num (.finite 200)), ("data", .obj [])])
    (.obj []) .undefined (by rfl) (by rfl)
  ⟨w.1 (by decide) (by rfl), w.2 (by decide) (by decide) (by decide) (by rfl)⟩

/-! ## The request is rejected -/

/-- Both functions, when validation passes and the request is rejected: the
run is the submission followed by the run of the `catch` block on the
rejection value. -/
theorem rejected_runs_catch (isValidEmail isValidPhoneNumber : JsVal → Bool)
    (axiosPost : String → JsVal → Except JsVal JsVal)
    (orgName phoneNumber email emergency password location websiteLink
      latitude longitude : JsVal)
    (error : JsVal) (tail : List Effect) (r : Except JsVal Unit) :
    (isValidEmail email = true →
      axiosPost "https://aniresfr-backend.vercel.app/login/" (loginBody email password) = .error error →
      catchBlock "An error occurred while logging in." error = ⟨tail, r⟩ →
      login isValidEmail axiosPost email password
        = ⟨submitted "https://aniresfr-backend.vercel.app/login/" (loginBody email password) ++ tail, r⟩) ∧
    (isValidEmail email = true → isValidPhoneNumber phoneNumber = true →
      isValidPhoneNumber emergency = true →
      axiosPost "https://aniresfr-backend.vercel.app/register/ngo"
        (registrationBody orgName phoneNumber email emergency password websiteLink
            latitude longitude) = .error error →
      catchBlock "An error occurred while registering." error = ⟨tail, r⟩ →
      registration isValidEmail isValidPhoneNumber axiosPost orgName phoneNumber email
          emergency password location websiteLink latitude longitude
        = ⟨submitted "https://aniresfr-backend.vercel.app/register/ngo"
            (registrationBody orgName phoneNumber email emergency password websiteLink
            latitude longitude) ++ tail, r⟩) := by
  constructor
  · intro h hpost hc
    rw [login_of_valid _ _ _ _ h]
    exact tryCatch_of_error (tryBlock_rejected _ _ _ _ hpost) hc
  · intro h hp he hpost hc
    rw [registration_of_valid _ _ _ _ _ _ _ _ _ _ _ _ h hp he]
    exact tryCatch_of_error (tryBlock_rejected _ _ _ _ hpost) hc

/-- Claim C4, the counterexample: with the structured error field equal to the
empty string, the last value `login` passes to `setError` is not that string
(it is the generic fallback message). -/
theorem empty_error_field_counterexample :
    (errorMessages (login sampleIsValidEmail (failsWith 400 (.obj [("error", .str "")]))
        (.str "ngo@example.org") (.str "secret")).trace).getLast?
      ≠ some (.str "") := by
  have hrun : (errorMessages (login sampleIsValidEmail (failsWith 400 (.obj [("error", .str "")]))
        (.str "ngo@example.org") (.str "secret")).trace).getLast?
      = some (.str "An error occurred while logging in.") := rfl
  rw [hrun]
  simp

/-- Claim C4, as amended: for `login` and for `registration`, when every
validation passes and the request is rejected with an error whose response body
has an `error` field equal to a non-empty string `e`, the effects after the
submission are exactly `setButtonState('error')` and `setError(e)`: the button
states are `loading`, `error`, the last error message is `e` verbatim, nothing
is stored, no navigation happens, and the promise resolves. -/
theorem structured_error_surfaced (isValidEmail isValidPhoneNumber : JsVal → Bool)
    (axiosPost : String → JsVal → Except JsVal JsVal)
    (orgName phoneNumber email emergency password location websiteLink
      latitude longitude : JsVal)
    (error response data : JsVal) (e : String)
    (hResponse : getProp error "response" = .ok response)
    (hData : getProp response "data" = .ok data)
    (hError : getProp data "error" = .ok (.str e))
    (hNonEmpty : e ≠ "") :
    (isValidEmail email = true →
      axiosPost "https://aniresfr-backend.vercel.app/login/" (loginBody email password) = .error error →
      login isValidEmail axiosPost email password
        = ⟨[.setError (.str ""), .setButtonState "loading",
            .post "https://aniresfr-backend.vercel.app/login/" (loginBody email password),
            .setButtonState "error", .setError (.str e)], .ok ()⟩) ∧
    (isValidEmail email = true → isValidPhoneNumber phoneNumber = true →
      isValidPhoneNumber emergency = true →
      axiosPost "https://aniresfr-backend.vercel.app/register/ngo"
        (registrationBody orgName phoneNumber email emergency password websiteLink
            latitude longitude) = .error error →
      registration isValidEmail isValidPhoneNumber axiosPost orgName phoneNumber email
          emergency password location websiteLink latitude longitude
        = ⟨[.setError (.str ""), .setButtonState "loading",
            .post "https://aniresfr-backend.vercel.app/register/ngo"
              (registrationBody orgName phoneNumber email emergency password websiteLink
            latitude longitude),
            .setButtonState "error", .setError (.str e)], .ok ()⟩) := by
  have ht : truthy (.str e) = true := by simp [truthy, hNonEmpty]
  have w := rejected_runs_catch isValidEmail isValidPhoneNumber axiosPost orgName phoneNumber
    email emergency password location websiteLink latitude longitude error
    [.setButtonState "error", .setError (.str e)] (.ok ())
  constructor
  · intro h hpost
    exact w.1 h hpost (catchBlock_structured _ _ _ _ _ hResponse hData hError ht)
  · intro h hp he hpost
    exact w.2 h hp he hpost (catchBlock_structured _ _ _ _ _ hResponse hData hError ht)

theorem structured_error_surfaced_witness :
    login sampleIsValidEmail (failsWith 409 (.obj [("error", .str "Email already registered")]))
        (.str "ngo@example.org") (.str "secret")
      = ⟨[.setError (.str ""), .setButtonState "loading",
          .post "https://aniresfr-backend.vercel.app/login/"
            (loginBody (.str "ngo@example.org") (.str "secret")),
          .setButtonState "error", .setError (.str "Email already registered")], .ok ()⟩ ∧
    registration sampleIsValidEmail sampleIsValidPhoneNumber (failsWith 409 (.obj [("error", .str "Email already registered")]))
        (.str "Paws") (.str "9876543210") (.str "ngo@example.org") (.str "9123456780")
        (.str "secret") (.str "Pune") (.str "https://paws.example.org")
        (.num (.finite 18)) (.num (.finite 73))
      = ⟨[.setError (.str ""), .setButtonState "loading",
          .post "https://aniresfr-backend.vercel.app/register/ngo"
            (registrationBody (.str "Paws") (.str "9876543210") (.str "ngo@example.org")
            (.str "9123456780") (.str "secret") (.str "https://paws.example.org")
            (.num (.finite 18)) (.num (.finite 73))),
          .setButtonState "error", .setError (.str "Email already registered")], .ok ()⟩ :=
  have w := structured_error_surfaced sampleIsValidEmail sampleIsValidPhoneNumber
    (failsWith 409 (.obj [("error", .str "Email already registered")]))
    (.str "Paws") (.str "9876543210") (.str "ngo@example.org") (.str "9123456780")
        (.str "secret") (.str "Pune") (.str "https://paws.example.org")
        (.num (.finite 18)) (.num (.finite 73))
    (.obj [("message", .str "Request failed"),
      ("response", .obj [("status", .num (.finite 409)),
        ("data", .obj [("error", .str "Email already registered")])])])
    (.obj [("status", .num (.finite 409)),
      ("data", .obj [("error", .str "Email already registered")])])
    (.obj [("error", .str "Email already registered")])
    "Email already registered" (by rfl) (by rfl) (by rfl) (by decide)
  ⟨w.1 (by decide) (by rfl), w.2 (by decide) (by decide) (by decide) (by rfl)⟩

/-- The part of claim C5 that the code satisfies: when every validation passes
and the request is rejected with an error that has no response (`error.response`
is falsy), or with a response whose body can be read and has no truthy `error`
field, the effects after the submission are `setButtonState('error')` and
`setError` with the fixed message of the operation. -/
theorem fallback_message_reported (isValidEmail isValidPhoneNumber : JsVal → Bool)
    (axiosPost : String → JsVal → Except JsVal JsVal)
    (orgName phoneNumber email emergency password location websiteLink
      latitude longitude : JsVal)
    (error response : JsVal)
    (hResponse : getProp error "response" = .ok response)
    (hBody : truthy response = false ∨
      ∃ data field, getProp response "data" = .ok data ∧
        getProp data "error" = .ok field ∧ truthy field = false) :
    (isValidEmail email = true →
      axiosPost "https://aniresfr-backend.vercel.app/login/" (loginBody email password) = .error error →
      login isValidEmail axiosPost email password
        = ⟨submitted "https://aniresfr-backend.vercel.app/login/" (loginBody email password)
            ++ [.setButtonState "error",
                .setError (.str "An error occurred while logging in.")], .ok ()⟩) ∧
    (isValidEmail email = true → isValidPhoneNumber phoneNumber = true →
      isValidPhoneNumber emergency = true →
      axiosPost "https://aniresfr-backend.vercel.app/register/ngo"
        (registrationBody orgName phoneNumber email emergency password websiteLink
            latitude longitude) = .error error →
      registration isValidEmail isValidPhoneNumber axiosPost orgName phoneNumber email
          emergency password location websiteLink latitude longitude
        = ⟨submitted "https://aniresfr-backend.vercel.app/register/ngo"
            (registrationBody orgName phoneNumber email emergency password websiteLink
            latitude longitude)
            ++ [.setButtonState "error",
                .setError (.str "An error occurred while registering.")], .ok ()⟩) := by
  have hc : ∀ fallback : String, catchBlock fallback error
      = ⟨[.setButtonState "error", .setError (.str fallback)], .ok ()⟩ := by
    intro fallback
    rcases hBody with hf | ⟨data, field, hd, hfield, hf⟩
    · exact catchBlock_no_response fallback error response hResponse hf
    · exact catchBlock_falsy_field fallback error response data field hResponse hd hfield hf
  constructor
  · intro h hpost
    exact (rejected_runs_catch isValidEmail isValidPhoneNumber axiosPost orgName phoneNumber
      email emergency password location websiteLink latitude longitude error _ _).1
      h hpost (hc _)
  · intro h hp he hpost
    exact (rejected_runs_catch isValidEmail isValidPhoneNumber axiosPost orgName phoneNumber
      email emergency password location websiteLink latitude longitude error _ _).2
      h hp he hpost (hc _)

/-- A network failure (an error without `response`) makes `login` report its
fallback message. -/
theorem fallback_message_reported_witness :
    login sampleIsValidEmail networkDown (.str "ngo@example.org") (.str "secret")
      = ⟨submitted "https://aniresfr-backend.vercel.app/login/"
          (loginBody (.str "ngo@example.org") (.str "secret"))
          ++ [.setButtonState "error",
              .setError (.str "An error occurred while logging in.")], .ok ()⟩ :=
  (fallback_message_reported sampleIsValidEmail sampleIsValidPhoneNumber networkDown
    (.str "Paws") (.str "9876543210") (.str "ngo@example.org") (.str "9123456780")
    (.str "secret") (.str "Pune") (.str "https://paws.example.org")
    (.num (.finite 18)) (.num (.finite 73))
    (.obj [("message", .str "Network Error")]) .undefined (by rfl) (Or.inl (by rfl))).1
    (by decide) (by rfl)

/-- Claim C5, the failing input: the server answers with status 500 and the
JSON body `null`. Reading `error.response.data.error` throws inside the `catch`
block, so the only value ever passed to `setError` is the empty string of the
submission: the fallback message is never reported. -/
theorem bodyless_error_response_drops_fallback :
    errorMessages (login sampleIsValidEmail (failsWith 500 .null)
        (.str "ngo@example.org") (.str "secret")).trace = [.str ""] ∧
    buttonStates (login sampleIsValidEmail (failsWith 500 .null)
        (.str "ngo@example.org") (.str "secret")).trace = ["loading", "error"] ∧
    errorMessages (registration sampleIsValidEmail sampleIsValidPhoneNumber (failsWith 500 .null)
        (.str "Paws") (.str "9876543210") (.str "ngo@example.org") (.str "9123456780")
        (.str "secret") (.str "Pune") (.str "https://paws.example.org")
        (.num (.finite 18)) (.num (.finite 73))).trace = [.str ""] ∧
    buttonStates (registration sampleIsValidEmail sampleIsValidPhoneNumber (failsWith 500 .null)
        (.str "Paws") (.str "9876543210") (.str "ngo@example.org") (.str "9123456780")
        (.str "secret") (.str "Pune") (.str "https://paws.example.org")
        (.num (.finite 18)) (.num (.finite 73))).trace = ["loading", "error"] :=
  ⟨rfl, rfl, rfl, rfl⟩

/-- Claim C8, the failing input: the server answers with status 500 and the
JSON body `null`. The `TypeError` thrown by `error.response.data.error` inside
the `catch` block leaves the function: the promise is rejected. -/
theorem bodyless_error_response_rejects :
    (login sampleIsValidEmail (failsWith 500 .null)
        (.str "ngo@example.org") (.str "secret")).result = .error typeError ∧
    (registration sampleIsValidEmail sampleIsValidPhoneNumber (failsWith 500 .null)
        (.str "Paws") (.str "9876543210") (.str "ngo@example.org") (.str "9123456780")
        (.str "secret") (.str "Pune") (.str "https://paws.example.org")
        (.num (.finite 18)) (.num (.finite 73))).result = .error typeError :=
  ⟨rfl, rfl⟩

/-- Claim C7, the failing input: the server answers 2xx with the JSON body
`null`. `setButtonState('success')` has already been called when
`response.data.token` throws, and the `catch` block then reports `error`: the
button states are `loading`, `success`, `error`. -/
theorem bodyless_response_reports_success_then_error :
    buttonStates (login sampleIsValidEmail (respondsWith .null)
        (.str "ngo@example.org") (.str "secret")).trace = ["loading", "success", "error"] ∧
    buttonStates (registration sampleIsValidEmail sampleIsValidPhoneNumber (respondsWith .null)
        (.str "Paws") (.str "9876543210") (.str "ngo@example.org") (.str "9123456780")
        (.str "secret") (.str "Pune") (.str "https://paws.example.org")
        (.num (.finite 18)) (.num (.finite 73))).trace = ["loading", "success", "error"] :=
  ⟨rfl, rfl⟩

/-- The button states of any invocation: none, or `loading` followed by
`success`, by `error`, or by `success` and then `error`. -/
theorem buttonStates_shapes (isValidEmail isValidPhoneNumber : JsVal → Bool)
    (axiosPost : String → JsVal → Except JsVal JsVal)
    (orgName phoneNumber email emergency password location websiteLink
      latitude longitude : JsVal) :
    buttonStates (login isValidEmail axiosPost email password).trace
      ∈ [[], ["loading", "success"], ["loading", "error"], ["loading", "success", "error"]] ∧
    buttonStates (registration isValidEmail isValidPhoneNumber axiosPost orgName phoneNumber email
          emergency password location websiteLink latitude longitude).trace
      ∈ [[], ["loading", "success"], ["loading", "error"], ["loading", "success", "error"]] := by
  constructor
  · rcases login_cases isValidEmail axiosPost email password with ⟨m, hm⟩ | hm
    · rw [hm]
      simp [buttonStates]
    · rw [hm]
      exact List.mem_cons_of_mem _ (buttonStates_pipeline _ _ _ _)
  · rcases registration_cases isValidEmail isValidPhoneNumber axiosPost orgName phoneNumber
      email emergency password location websiteLink latitude longitude with ⟨m, hm⟩ | hm
    · rw [hm]
      simp [buttonStates]
    · rw [hm]
      exact List.mem_cons_of_mem _ (buttonStates_pipeline _ _ _ _)

theorem posts_pipeline (axiosPost : String → JsVal → Except JsVal JsVal)
    (url : String) (body : JsVal) (fallback : String) :
    posts (Run.tryCatch (tryBlock axiosPost url body) (catchBlock fallback)).trace
      = [(url, body)] := by
  rcases pipeline_cases axiosPost url body fallback with ⟨t, h⟩ | h | ⟨m, h⟩ | h <;>
    rw [h] <;> simp [submitted, posts]

/-! ## Frame conditions -/

/-- Claim C9: every invocation of `login` or `registration`, whatever the
validators answer and however the request settles, makes at most one request,
at most one storage write and at most one navigation; a write goes to
"csrftoken" and a navigation to "/"; a write happened exactly when a navigation
did; and when the last reported button state is `error`, or no button state
was reported, neither happened. -/
theorem no_partial_success (isValidEmail isValidPhoneNumber : JsVal → Bool)
    (axiosPost : String → JsVal → Except JsVal JsVal)
    (orgName phoneNumber email emergency password location websiteLink
      latitude longitude : JsVal) :
    NoPartialSuccess (login isValidEmail axiosPost email password).trace ∧
    NoPartialSuccess (registration isValidEmail isValidPhoneNumber axiosPost orgName phoneNumber email
          emergency password location websiteLink latitude longitude).trace := by
  constructor
  · rcases login_cases isValidEmail axiosPost email password with ⟨m, hm⟩ | hm
    · rw [hm]
      exact noPartialSuccess_rejected m
    · rw [hm]
      exact noPartialSuccess_pipeline _ _ _ _
  · rcases registration_cases isValidEmail isValidPhoneNumber axiosPost orgName phoneNumber
      email emergency password location websiteLink latitude longitude with ⟨m, hm⟩ | hm
    · rw [hm]
      exact noPartialSuccess_rejected m
    · rw [hm]
      exact noPartialSuccess_pipeline _ _ _ _

/-- Claim C10: when every validation passes, `registration` sends exactly one
request, to the `/register/ngo` endpoint, whose body maps the arguments to
`name`, `phone_number`, `email`, `password`, `emergency_contact_number`,
`website`, `latitude`, `longitude`, with `animals_supported` the empty array
and `address` the string "temp"; and the `location` argument influences
nothing: replacing it by any other value gives the same run (same request, same
sink calls, same storage write and navigation, same settlement). -/
theorem registration_request (isValidEmail isValidPhoneNumber : JsVal → Bool)
    (axiosPost : String → JsVal → Except JsVal JsVal)
    (orgName phoneNumber email emergency password location websiteLink
      latitude longitude : JsVal)
    (h : isValidEmail email = true) (hp : isValidPhoneNumber phoneNumber = true)
    (he : isValidPhoneNumber emergency = true) :
    posts (registration isValidEmail isValidPhoneNumber axiosPost orgName phoneNumber email
          emergency password location websiteLink latitude longitude).trace
      = [("https://aniresfr-backend.vercel.app/register/ngo",
          .obj [("name", orgName),
                ("phone_number", phoneNumber),
                ("email", email),
                ("password", password),
                ("emergency_contact_number", emergency),
                ("animals_supported", .arr []),
                ("website", websiteLink),
                ("address", .str "temp"),
                ("latitude", latitude),
                ("longitude", longitude)])] ∧
    ∀ otherLocation : JsVal,
      registration isValidEmail isValidPhoneNumber axiosPost orgName phoneNumber email
          emergency password otherLocation websiteLink latitude longitude
        = registration isValidEmail isValidPhoneNumber axiosPost orgName phoneNumber email
          emergency password location websiteLink latitude longitude := by
  constructor
  · rw [registration_of_valid _ _ _ _ _ _ _ _ _ _ _ _ h hp he]
    exact posts_pipeline _ _ _ _
  · intro otherLocation
    rfl

theorem registration_request_witness :
    posts (registration sampleIsValidEmail sampleIsValidPhoneNumber
        (respondsWith (.obj [("token", .str "abc123")]))
        (.str "Paws") (.str "9876543210") (.str "ngo@example.org") (.str "9123456780")
        (.str "secret") (.str "Pune") (.str "https://paws.example.org")
        (.num (.finite 18)) (.num (.finite 73))).trace
      = [("https://aniresfr-backend.vercel.app/register/ngo",
          .obj [("name", .str "Paws"),
                ("phone_number", .str "9876543210"),
                ("email", .str "ngo@example.org"),
                ("password", .str "secret"),
                ("emergency_contact_number", .str "9123456780"),
                ("animals_supported", .arr []),
                ("website", .str "https://paws.example.org"),
                ("address", .str "temp"),
                ("latitude", .num (.finite 18)),
                ("longitude", .num (.finite 73))])] ∧
    registration sampleIsValidEmail sampleIsValidPhoneNumber
        (respondsWith (.obj [("token", .str "abc123")]))
        (.str "Paws") (.str "9876543210") (.str "ngo@example.org") (.str "9123456780")
        (.str "secret") (.str "Delhi") (.str "https://paws.example.org")
        (.num (.finite 18)) (.num (.finite 73))
      = registration sampleIsValidEmail sampleIsValidPhoneNumber
        (respondsWith (.obj [("token", .str "abc123")]))
        (.str "Paws") (.str "9876543210") (.str "ngo@example.org") (.str "9123456780")
        (.str "secret") (.str "Pune") (.str "https://paws.example.org")
        (.num (.finite 18)) (.num (.finite 73)) :=
  have w := registration_request sampleIsValidEmail sampleIsValidPhoneNumber
    (respondsWith (.obj [("token", .str "abc123")]))
    (.str "Paws") (.str "9876543210") (.str "ngo@example.org") (.str "9123456780")
    (.str "secret") (.str "Pune") (.str "https://paws.example.org")
    (.num (.finite 18)) (.num (.finite 73)) (by decide) (by decide) (by decide)
  ⟨w.1, w.2 (.str "Delhi")⟩

end NgoAuthService
